import Mathlib

/-!
Shallow embedding of the SCIE-Crawler repository (two Python scripts:
`batch_download_journals.py` and `download_journal_articles.py`) used to
check the natural-language specification against the code.

JSON values, files and the remote API are modelled explicitly; collaborator
outcomes (the remote API after retries, and write failures) are supplied by
an environment record, so each function of the source becomes a pure Lean
function of that environment.  Side effects are made visible as return
values: the list of network requests issued and the list of file writes
performed.
-/

/-- JSON values, as stored in files and returned by the remote API. -/
inductive Json where
  | null
  | bool (b : Bool)
  | num (n : Int)
  | str (s : String)
  | arr (elems : List Json)
  | obj (fields : List (String × Json))

/-- `isinstance(data, list)` on a decoded JSON value. -/
def Json.isArr : Json → Bool
  | .arr _ => true
  | _ => false

/-- Content of a file on disk, as seen by `json.load`:
`valid j` — decodes as the JSON value `j`;
`invalid` — raises one of the exceptions the source catches at its
resume check, `json.JSONDecodeError` or `IOError`;
`raises msg` — raises an exception outside that tuple (for example
`UnicodeDecodeError` on bytes that are not valid UTF-8, or
`RecursionError` on deeply nested JSON), which the resume check does
not catch. -/
inductive JFile where
  | invalid
  | valid (j : Json)
  | raises (msg : String)

/-- A journal entity returned by the search endpoint.  `journal.get("id")`
may be absent (`none`), as may `display_name`. -/
structure Source where
  id : Option String
  display_name : Option String
deriving DecidableEq

/-- `authorship.get("author", {})`: the nested author object, whose
`display_name` may be absent. -/
structure Author where
  display_name : Option String
deriving DecidableEq

/-- One entry of the `authorships` list of a raw work. -/
structure Authorship where
  author : Option Author
  is_corresponding : Option Bool
deriving DecidableEq

/-- A raw work entity from the API, with every optional field modelled as
`Option` (absent key = `none`).  The `abstract` field models a plain-text
abstract key that a raw entity may carry; the code under test may or may
not consult it. -/
structure Work where
  title : Option String
  doi : Option String
  publication_date : Option String
  publication_year : Option Int
  authorships : Option (List Authorship)
  abstract : Option String
  abstract_inverted_index : Option (List (String × List Nat))
  cited_by_count : Option Int
  id : Option String
  type : Option String
deriving DecidableEq

/-- The raw entity with every optional field absent. -/
def emptyWork : Work :=
  { title := none, doi := none, publication_date := none,
    publication_year := none, authorships := none, abstract := none,
    abstract_inverted_index := none, cited_by_count := none,
    id := none, type := none }

/-- The processed dictionary built by `process_work`.  Field values are
JSON values, since the Python dict mixes strings and numbers (e.g.
`publication_year` is an int when present and `""` when absent). -/
structure WorkRecord where
  title : Json
  doi : Json
  publication_date : Json
  publication_year : Json
  authors : Json
  corresponding_authors : Json
  abstract : Json
  cited_by_count : Json
  openalex_id : Json
  type : Json

/-- The JSON object written for one record by `save_to_json`. -/
def WorkRecord.toJson (r : WorkRecord) : Json :=
  .obj [("title", r.title), ("doi", r.doi),
        ("publication_date", r.publication_date),
        ("publication_year", r.publication_year),
        ("authors", r.authors),
        ("corresponding_authors", r.corresponding_authors),
        ("abstract", r.abstract),
        ("cited_by_count", r.cited_by_count),
        ("openalex_id", r.openalex_id),
        ("type", r.type)]

/-- The per-journal result dictionary returned by `process_single_journal`
and collected into the progress log. -/
structure JobResult where
  line_number : Nat
  journal_name : String
  journal_display_name : Option String
  status : String
  articles_count : Option Nat
  message : String
deriving DecidableEq

/-- One HTTP request to the OpenAlex API. -/
inductive Req where
  | search (journal_name : String)
  | count (journal_id : Option String)
  | page (journal_id : Option String) (page : Nat)
deriving DecidableEq

/-- `PER_PAGE = 200` in both scripts. -/
def PER_PAGE : Nat := 200

/-- `MAX_WORKERS = 2` in the batch script. -/
def MAX_WORKERS : Nat := 2

/-- `MAX_RETRIES = 3` in the batch script. -/
def MAX_RETRIES : Nat := 3

/-! ## Text Reconstruction (`reconstruct_abstract_from_inverted_index`)

The Python dict is modelled as an association list in insertion order,
matching CPython's guaranteed dict iteration order.  `list.sort` is a
stable sort; we embed it as a structurally recursive stable insertion
sort on position keys and prove sortedness, permutation and stability
below. -/

/-- Insert one `(position, word)` pair into an already sorted list,
before the first element of greater-or-equal position (so an element
inserted earlier never jumps over an equal key: stability). -/
def insertByPos (x : Nat × String) : List (Nat × String) → List (Nat × String)
  | [] => [x]
  | y :: ys => if x.1 ≤ y.1 then x :: y :: ys else y :: insertByPos x ys

/-- Stable sort of `(position, word)` pairs by position, ascending:
the embedding of `word_positions.sort(key=lambda x: x[0])`. -/
def sortByPos : List (Nat × String) → List (Nat × String)
  | [] => []
  | x :: xs => insertByPos x (sortByPos xs)

/-- The flattening loop: one `(pos, word)` pair per position entry per
word, in dict-traversal order. -/
def flattenIndex (inverted_index : List (String × List Nat)) :
    List (Nat × String) :=
  inverted_index.flatMap fun wp => wp.2.map fun pos => (pos, wp.1)

/-- `reconstruct_abstract_from_inverted_index`: guard the falsy (empty)
dict, flatten, sort by position, join with single spaces. -/
def reconstruct_abstract_from_inverted_index
    (inverted_index : List (String × List Nat)) : String :=
  if inverted_index.isEmpty then ""
  else
    String.intercalate " "
      ((sortByPos (flattenIndex inverted_index)).map fun wp => wp.2)

/-! ## Record Normalizer (`process_work` and author extraction) -/

/-- `authorship.get("author", {}).get("display_name", "Unknown")`. -/
def authorName (a : Authorship) : String :=
  ((a.author.getD { display_name := none }).display_name).getD "Unknown"

/-- `extract_all_authors`: every author name, in authorship order. -/
def extract_all_authors (authorships : List Authorship) : List String :=
  authorships.map authorName

/-- `extract_corresponding_authors`: names of authorships whose
`is_corresponding` flag (default `False`) is true, in order. -/
def extract_corresponding_authors (authorships : List Authorship) :
    List String :=
  (authorships.filter fun a => a.is_corresponding.getD false).map authorName

/-- `process_work`: normalize one raw work into the output record.
The abstract is computed from `abstract_inverted_index` alone (Python:
`if abstract_inverted_index:` — absent and empty are both falsy). -/
def process_work (work : Work) : WorkRecord :=
  let authorships := work.authorships.getD []
  let all_authors := extract_all_authors authorships
  let corresponding_authors := extract_corresponding_authors authorships
  let pub_date := work.publication_date.getD ""
  let abstract :=
    match work.abstract_inverted_index with
    | some idx =>
        if idx.isEmpty then ""
        else reconstruct_abstract_from_inverted_index idx
    | none => ""
  { title := .str (work.title.getD "No title"),
    doi := .str (work.doi.getD ""),
    publication_date := .str pub_date,
    publication_year :=
      match work.publication_year with
      | some y => .num y
      | none => .str "",
    authors :=
      .str (if all_authors.isEmpty then "No authors"
            else String.intercalate "; " all_authors),
    corresponding_authors :=
      .str (if corresponding_authors.isEmpty then ""
            else String.intercalate "; " corresponding_authors),
    abstract := .str abstract,
    cited_by_count := .num (work.cited_by_count.getD 0),
    openalex_id := .str (work.id.getD ""),
    type := .str (work.type.getD "") }

/-! ## Paged Fetcher (`download_all_works`) -/

/-- Collaborator outcomes for the batch script.  Each `Except` value is
the outcome of one API operation after its retry wrapper: `.ok` is the
decoded response, `.error msg` a permanent failure surfaced as an
exception.  `saveFail p = some msg` means writing file `p` raises. -/
structure Env where
  fs : String → Option JFile
  search : String → Except String (Option Source)
  count : Option String → Except String Int
  page : Option String → Nat → Except String (List Work)
  saveFail : String → Option String

/-- `num_pages = (total_count + PER_PAGE - 1) // PER_PAGE`. -/
def num_pages (total_count : Nat) : Nat :=
  (total_count + PER_PAGE - 1) / PER_PAGE

/-- `download_all_works`: one `fetch_works_page` task per page number in
`[1, num_pages]`; results are collected in submission order, a failed
page contributing nothing (`try/except` around `future.result()`); all
collected raw works are then normalized.  `max_workers` (the thread-pool
size) only paces submissions in the source and does not affect the
value; it is kept as an argument to state exactly that. -/
def download_all_works (env : Env) (journal_id : Option String)
    (total_count : Nat) (max_workers : Nat) :
    List WorkRecord × List Req :=
  let _ := max_workers
  let pages := List.range' 1 (num_pages total_count)
  let all_works := pages.foldl
    (fun acc p =>
      match env.page journal_id p with
      | .ok works => acc ++ works
      | .error _ => acc) []
  (all_works.map process_work, pages.map (Req.page journal_id))

/-! ## Journal Job Runner (`process_single_journal`) -/

/-- `os.path.join(output_dir, f"{line_number}.json")`. -/
def output_path (output_dir : String) (line_number : Nat) : String :=
  output_dir ++ "/" ++ toString line_number ++ ".json"

/-- `is_valid_json_file`: the file exists, decodes as JSON, and the
decoded value is a list.  Its `except (json.JSONDecodeError, IOError)`
only covers the `invalid` file state; a decode exception outside that
tuple (the `raises` state) propagates to the caller, hence the
`Except` result. -/
def is_valid_json_file (fs : String → Option JFile) (filepath : String) :
    Except String Bool :=
  match fs filepath with
  | none => .ok false
  | some .invalid => .ok false
  | some (.raises msg) => .error msg
  | some (.valid j) => .ok j.isArr

/-- The re-read of an existing output file inside the resume branch
(`json.load` on the same path).  That read sits under a bare
`except Exception`, so every failure — decode errors included — maps
to `none` (fall through and reprocess). -/
def read_json_list (fs : String → Option JFile) (filepath : String) :
    Option (List Json) :=
  match fs filepath with
  | some (.valid (.arr elems)) => some elems
  | _ => none

/-- The body of `process_single_journal` after the resume check has
fallen through: search → count → download → save.  Returns the job
result (`none` when an uncaught exception propagates), the requests
issued, and the file writes performed. -/
def process_after_resume (env : Env) (journal_name : String)
    (line_number : Nat) (output_dir : String) :
    Option JobResult × List Req × List (String × Json) :=
  let output_file := output_path output_dir line_number
  match env.search journal_name with
  | .error e =>
      (some { line_number, journal_name, journal_display_name := none,
              status := "failed", articles_count := none,
              message := "Search failed: " ++ e },
       [.search journal_name], [])
  | .ok none =>
      (some { line_number, journal_name, journal_display_name := none,
              status := "not_found", articles_count := none,
              message := "Journal not found in OpenAlex database" },
       [.search journal_name], [])
  | .ok (some journal) =>
      let journal_id := journal.id
      let journal_display_name := journal.display_name.getD journal_name
      match env.count journal_id with
      | .error e =>
          (some { line_number, journal_name,
                  journal_display_name := some journal_display_name,
                  status := "failed", articles_count := none,
                  message := "Failed to get article count: " ++ e },
           [.search journal_name, .count journal_id], [])
      | .ok total_count =>
          if total_count = 0 then
            -- `save_to_json([], output_file)` sits outside every
            -- try/except in the source: a write failure here escapes.
            match env.saveFail output_file with
            | some _ =>
                (none, [.search journal_name, .count journal_id], [])
            | none =>
                (some { line_number, journal_name,
                        journal_display_name := some journal_display_name,
                        status := "success", articles_count := some 0,
                        message := "No articles" },
                 [.search journal_name, .count journal_id],
                 [(output_file, Json.arr [])])
          else
            let dl := download_all_works env journal_id total_count.toNat
                        MAX_WORKERS
            let reqs := [Req.search journal_name, Req.count journal_id]
                          ++ dl.2
            -- here `save_to_json` is inside the `try`: a write failure
            -- is caught and becomes a `failed` result.
            match env.saveFail output_file with
            | some e =>
                (some { line_number, journal_name,
                        journal_display_name := some journal_display_name,
                        status := "failed", articles_count := none,
                        message := "Download failed: " ++ e },
                 reqs, [])
            | none =>
                (some { line_number, journal_name,
                        journal_display_name := some journal_display_name,
                        status := "success",
                        articles_count := some dl.1.length,
                        message := "Success" },
                 reqs,
                 [(output_file, Json.arr (dl.1.map WorkRecord.toJson))])

/-- `process_single_journal`: resume check first, then the
search/count/download pipeline.  Evaluating the resume condition calls
`is_valid_json_file`, so an uncaught decode exception from it escapes
the whole function before any network request. -/
def process_single_journal (env : Env) (journal_name : String)
    (line_number : Nat) (output_dir : String) :
    Option JobResult × List Req × List (String × Json) :=
  let output_file := output_path output_dir line_number
  match is_valid_json_file env.fs output_file with
  | .error _ => (none, [], [])
  | .ok true =>
      match read_json_list env.fs output_file with
      | some existing_data =>
          (some { line_number, journal_name, journal_display_name := none,
                  status := "skipped",
                  articles_count := some existing_data.length,
                  message := "File already exists and is valid" },
           [], [])
      | none =>
          -- Python reaches this only if the file changes between the
          -- two reads; it then falls through and reprocesses.
          process_after_resume env journal_name line_number output_dir
  | .ok false =>
      process_after_resume env journal_name line_number output_dir

/-! ## Batch Orchestrator (the loop of `main` in the batch script) -/

/-- Orchestrator state: the accumulated results and the current content
of the progress-log file (`none` = never written). -/
structure BatchState where
  results : List JobResult
  log : Option (List JobResult)
deriving DecidableEq

/-- One iteration of the batch loop: append the job's result, then
`save_progress_log(results)` when `len(results) % 10 == 0`. -/
def batch_step (s : BatchState) (job : JobResult) : BatchState :=
  let results := s.results ++ [job]
  { results,
    log := if results.length % 10 = 0 then some results else s.log }

/-- Orchestrator state after the first `k` jobs of the run have
completed (before the final log write); `jobs` abstracts the per-line
results returned by the Job Runner. -/
def batch_after (jobs : List JobResult) : BatchState :=
  jobs.foldl batch_step { results := [], log := none }

/-- A complete run: the loop followed by the unconditional final
`save_progress_log(results)`. -/
def batch_run (jobs : List JobResult) : BatchState :=
  let s := batch_after jobs
  { s with log := some s.results }

/-! ## Single-journal script (`download_journal_articles.py`) -/

/-- Collaborator outcomes for the single-journal script.  Unlike the
batch script there is no retry wrapper: each `Except` value is the
outcome of the one HTTP request the operation makes. -/
structure SJEnv where
  search : Except String (Option Source)
  count : Except String Int
  page : Nat → Except String (List Work)

/-- Single-journal `search_journal_by_name`: one request; a
`RequestException` is caught and turned into `None`. -/
def sj_search_journal_by_name (journal_name : String)
    (outcome : Except String (Option Source)) :
    Option Source × List Req :=
  match outcome with
  | .ok r => (r, [.search journal_name])
  | .error _ => (none, [.search journal_name])

/-- Single-journal `get_total_works_count`: one request, no retry; a
`RequestException` is caught and `0` is returned. -/
def sj_get_total_works_count (journal_id : Option String)
    (outcome : Except String Int) : Int × List Req :=
  match outcome with
  | .ok n => (n, [.count journal_id])
  | .error _ => (0, [.count journal_id])

/-- Single-journal `download_all_works`: like the batch one but each
page's `RequestException` is already caught inside `fetch_works_page`
(returning `[]`).  Collection order over the pool is not modelled; the
claims checked here do not depend on it. -/
def sj_download_all_works (env : SJEnv) (total_count : Nat) :
    List WorkRecord × List Req :=
  let pages := List.range' 1 (num_pages total_count)
  let all_works := pages.foldl
    (fun acc p =>
      match env.page p with
      | .ok works => acc ++ works
      | .error _ => acc) []
  (all_works.map process_work, pages.map (Req.page none))

/-- How the single-journal `main` terminates. -/
inductive SJOutcome where
  | no_journal
  | no_works
  | no_downloads
  | completed (works : List WorkRecord)

/-- The single-journal `main` pipeline: search (exit if not found),
count (exit if zero), download (exit if nothing downloaded), save. -/
def sj_main (env : SJEnv) (journal_name : String) : SJOutcome :=
  match (sj_search_journal_by_name journal_name env.search).1 with
  | none => .no_journal
  | some journal =>
      let total_count := (sj_get_total_works_count journal.id env.count).1
      if total_count = 0 then .no_works
      else
        let works := (sj_download_all_works env total_count.toNat).1
        if works.isEmpty then .no_downloads
        else .completed works

/-! ## Properties of the stable sort -/

theorem insertByPos_perm (x : Nat × String) (l : List (Nat × String)) :
    (insertByPos x l).Perm (x :: l) := by
  induction l with
  | nil => simp [insertByPos]
  | cons y ys ih =>
      by_cases h : x.1 ≤ y.1
      · simp [insertByPos, h]
      · simp only [insertByPos, if_neg h]
        exact (ih.cons y).trans (List.Perm.swap x y ys)

theorem sortByPos_perm (l : List (Nat × String)) : (sortByPos l).Perm l := by
  induction l with
  | nil => simp [sortByPos]
  | cons x xs ih =>
      exact (insertByPos_perm x (sortByPos xs)).trans (ih.cons x)

theorem insertByPos_sorted (x : Nat × String) (l : List (Nat × String))
    (h : l.Pairwise (fun a b => a.1 ≤ b.1)) :
    (insertByPos x l).Pairwise (fun a b => a.1 ≤ b.1) := by
  induction l with
  | nil => simp [insertByPos]
  | cons y ys ih =>
      rw [List.pairwise_cons] at h
      by_cases hx : x.1 ≤ y.1
      · simp only [insertByPos, if_pos hx]
        rw [List.pairwise_cons]
        constructor
        · intro b hb
          rcases List.mem_cons.mp hb with rfl | hb
          · exact hx
          · exact le_trans hx (h.1 b hb)
        · rw [List.pairwise_cons]; exact h
      · simp only [insertByPos, if_neg hx]
        rw [List.pairwise_cons]
        refine ⟨?_, ih h.2⟩
        intro b hb
        rcases List.mem_cons.mp ((insertByPos_perm x ys).mem_iff.mp hb)
          with rfl | hb
        · omega
        · exact h.1 b hb

theorem sortByPos_sorted (l : List (Nat × String)) :
    (sortByPos l).Pairwise (fun a b => a.1 ≤ b.1) := by
  induction l with
  | nil => simp [sortByPos]
  | cons x xs ih => exact insertByPos_sorted x (sortByPos xs) ih

theorem insertByPos_filter (x : Nat × String) (l : List (Nat × String))
    (k : Nat) :
    (insertByPos x l).filter (fun a => a.1 == k)
      = if x.1 = k then x :: l.filter (fun a => a.1 == k)
        else l.filter (fun a => a.1 == k) := by
  induction l with
  | nil =>
      by_cases h : x.1 = k <;> simp [insertByPos, List.filter_cons, h]
  | cons y ys ih =>
      by_cases hx : x.1 ≤ y.1
      · simp only [insertByPos, if_pos hx, List.filter_cons]
        split_ifs <;> simp_all
      · simp only [insertByPos, if_neg hx, List.filter_cons, ih]
        split_ifs <;> simp_all

theorem sortByPos_filter (l : List (Nat × String)) (k : Nat) :
    (sortByPos l).filter (fun a => a.1 == k)
      = l.filter (fun a => a.1 == k) := by
  induction l with
  | nil => rfl
  | cons x xs ih =>
      simp only [sortByPos, insertByPos_filter, ih, List.filter_cons]
      split_ifs <;> simp_all

theorem pairwise_lt_of_le_nodup (l : List (Nat × String))
    (hle : l.Pairwise (fun a b => a.1 ≤ b.1))
    (hnd : (l.map Prod.fst).Nodup) :
    l.Pairwise (fun a b => a.1 < b.1) := by
  have hne : l.Pairwise (fun a b => a.1 ≠ b.1) := List.pairwise_map.mp hnd
  exact (hle.and hne).imp fun h => lt_of_le_of_ne h.1 h.2

theorem eq_of_perm_of_strictSorted (l₁ l₂ : List (Nat × String))
    (hp : l₁.Perm l₂)
    (h₁ : l₁.Pairwise (fun a b => a.1 < b.1))
    (h₂ : l₂.Pairwise (fun a b => a.1 < b.1)) : l₁ = l₂ := by
  haveI : IsAntisymm (Nat × String) (fun a b => a.1 < b.1) :=
    ⟨fun a b hab hba => absurd (hab.trans hba) (lt_irrefl _)⟩
  exact List.eq_of_perm_of_sorted hp h₁ h₂

theorem enum_pairwise_lt (ws : List String) :
    ws.enum.Pairwise (fun a b => a.1 < b.1) := by
  have h := List.pairwise_lt_range ws.length
  rw [← List.enum_map_fst ws] at h
  exact List.pairwise_map.mp h

/-- `C3` claim theorem (see the doc comment of `c3_text_reconstruction`):
helper giving the sorted flattening equal to `ws.enum`. -/
theorem sortByPos_flatten_eq_enum (idx : List (String × List Nat))
    (ws : List String) (hperm : (flattenIndex idx).Perm ws.enum) :
    sortByPos (flattenIndex idx) = ws.enum := by
  apply eq_of_perm_of_strictSorted
  · exact (sortByPos_perm _).trans hperm
  · apply pairwise_lt_of_le_nodup _ (sortByPos_sorted _)
    have h1 : ((sortByPos (flattenIndex idx)).map Prod.fst).Perm
        (ws.enum.map Prod.fst) :=
      ((sortByPos_perm _).trans hperm).map Prod.fst
    have h2 : ws.enum.map Prod.fst = List.range ws.length :=
      List.enum_map_fst ws
    exact h1.nodup_iff.mpr (h2 ▸ List.nodup_range ws.length)
  · exact enum_pairwise_lt ws

/-- C3.  Text Reconstruction correctness: the flattening produces one
pair per position entry per word; the sort is a permutation, ascending
by position, and stable (pairs of any fixed position keep their
flattening order); for an index whose flattened pairs are exactly the
positions `0..n-1` paired with the words of `ws` (in any traversal
order), reconstruction returns the words of `ws` in position order
joined by single spaces; and the empty index reconstructs to `""`. -/
theorem c3_text_reconstruction :
    (∀ idx : List (String × List Nat),
        (sortByPos (flattenIndex idx)).Perm (flattenIndex idx)
      ∧ (sortByPos (flattenIndex idx)).Pairwise (fun a b => a.1 ≤ b.1)
      ∧ ∀ k, (sortByPos (flattenIndex idx)).filter (fun a => a.1 == k)
           = (flattenIndex idx).filter (fun a => a.1 == k))
  ∧ (∀ (idx : List (String × List Nat)) (ws : List String),
        (flattenIndex idx).Perm ws.enum →
        reconstruct_abstract_from_inverted_index idx =
          String.intercalate " " ws)
  ∧ reconstruct_abstract_from_inverted_index [] = "" := by
  refine ⟨fun idx => ⟨sortByPos_perm _, sortByPos_sorted _,
            fun k => sortByPos_filter _ k⟩, ?_, rfl⟩
  intro idx ws hperm
  cases idx with
  | nil =>
      have hws : ws = [] := by
        have h0 : ws.enum = [] := (hperm.symm).eq_nil
        simpa [List.enum_eq_nil] using h0
      subst hws
      rfl
  | cons p ps =>
      rw [reconstruct_abstract_from_inverted_index]
      rw [if_neg (by simp)]
      rw [sortByPos_flatten_eq_enum (p :: ps) ws hperm]
      have : ws.enum.map (fun wp => wp.2) = ws := List.enum_map_snd ws
      rw [this]

/-- Witness for C3 at a concrete index: `{"world": [1], "hello": [0]}`
reconstructs to `"hello world"`. -/
theorem c3_text_reconstruction_witness :
    (flattenIndex [("world", [1]), ("hello", [0])]).Perm
        (["hello", "world"].enum)
  ∧ reconstruct_abstract_from_inverted_index
        [("world", [1]), ("hello", [0])] = "hello world" := by
  refine ⟨by decide, ?_⟩
  have h := c3_text_reconstruction.2.1
    [("world", [1]), ("hello", [0])] ["hello", "world"] (by decide)
  simpa using h

/-- C4, counterexample: the claim's stated default for a missing title
(empty string) is wrong — `process_work` of the entity with every field
absent yields title `"No title"`, not `""` (and authors `"No authors"`,
not `""`). -/
theorem c4_normalizer_defaults_counterexample :
    (process_work emptyWork).title ≠ Json.str ""
  ∧ (process_work emptyWork).title = Json.str "No title"
  ∧ (process_work emptyWork).authors ≠ Json.str ""
  ∧ (process_work emptyWork).authors = Json.str "No authors" := by
  refine ⟨?_, rfl, ?_, rfl⟩
  · intro h
    have h' : "No title" = "" := Json.str.inj h
    simp at h'
  · intro h
    have h' : "No authors" = "" := Json.str.inj h
    simp at h'

/-- C4 (amended).  Record Normalizer totality and defaults: for every
raw entity, possibly missing any optional fields, `process_work` returns
a record (it is a total function), and every absent field takes the
default the code assigns: `"No title"` for the title, `"No authors"`
for the authors string, `0` for `cited_by_count`, and the empty string
for all remaining fields. -/
theorem c4_normalizer_defaults (w : Work) :
    (w.title = none → (process_work w).title = Json.str "No title")
  ∧ (w.doi = none → (process_work w).doi = Json.str "")
  ∧ (w.publication_date = none →
        (process_work w).publication_date = Json.str "")
  ∧ (w.publication_year = none →
        (process_work w).publication_year = Json.str "")
  ∧ (w.authorships = none →
        (process_work w).authors = Json.str "No authors"
      ∧ (process_work w).corresponding_authors = Json.str "")
  ∧ (w.abstract_inverted_index = none →
        (process_work w).abstract = Json.str "")
  ∧ (w.cited_by_count = none →
        (process_work w).cited_by_count = Json.num 0)
  ∧ (w.id = none → (process_work w).openalex_id = Json.str "")
  ∧ (w.type = none → (process_work w).type = Json.str "") := by
  refine ⟨fun h => ?_, fun h => ?_, fun h => ?_, fun h => ?_,
          fun h => ⟨?_, ?_⟩, fun h => ?_, fun h => ?_, fun h => ?_,
          fun h => ?_⟩ <;>
    simp [process_work, h, extract_all_authors,
          extract_corresponding_authors]

/-- Witness for C4 at the all-absent entity. -/
theorem c4_normalizer_defaults_witness :
    (process_work emptyWork).title = Json.str "No title"
  ∧ (process_work emptyWork).authors = Json.str "No authors"
  ∧ (process_work emptyWork).cited_by_count = Json.num 0
  ∧ (process_work emptyWork).doi = Json.str "" :=
  ⟨(c4_normalizer_defaults emptyWork).1 rfl,
   ((c4_normalizer_defaults emptyWork).2.2.2.2.1 rfl).1,
   (c4_normalizer_defaults emptyWork).2.2.2.2.2.2.1 rfl,
   (c4_normalizer_defaults emptyWork).2.1 rfl⟩

/-- C5, counterexample: an entity whose plain-text abstract field is
present (`"Hello"`) but whose inverted-index field is absent is
normalized with an empty abstract — the plain-text field is not used,
contrary to the claimed priority. -/
theorem c5_abstract_priority_counterexample :
    (process_work { emptyWork with abstract := some "Hello" }).abstract
        = Json.str ""
  ∧ (process_work { emptyWork with abstract := some "Hello" }).abstract
        ≠ Json.str "Hello" := by
  refine ⟨rfl, ?_⟩
  intro h
  have h' : "" = "Hello" := Json.str.inj h
  simp at h'

/-- C5 (amended).  Abstract source: the normalizer never consults the
entity's plain-text abstract field (changing it leaves the whole output
record unchanged); the output abstract is reconstructed from the
inverted-index field exactly when that field is present and non-empty,
and is the empty string otherwise. -/
theorem c5_abstract_source (w : Work) (a : Option String) :
    process_work { w with abstract := a } = process_work w
  ∧ (process_work w).abstract =
      Json.str (match w.abstract_inverted_index with
        | some idx =>
            if idx.isEmpty then ""
            else reconstruct_abstract_from_inverted_index idx
        | none => "") :=
  ⟨rfl, rfl⟩

/-! ## Claims about the Job Runner and the Paged Fetcher -/

/-- C1.  Resume idempotence: whenever the per-line output file exists
and decodes as a JSON list, `process_single_journal` returns the
`skipped` JobResult carrying the length of the persisted list, issues no
network request of any kind, and writes nothing. -/
theorem c1_resume_idempotence (env : Env) (journal_name : String)
    (line_number : Nat) (output_dir : String) (elems : List Json)
    (h : env.fs (output_path output_dir line_number)
           = some (.valid (.arr elems))) :
    process_single_journal env journal_name line_number output_dir =
      (some { line_number, journal_name, journal_display_name := none,
              status := "skipped", articles_count := some elems.length,
              message := "File already exists and is valid" },
       ([] : List Req), ([] : List (String × Json))) := by
  simp [process_single_journal, is_valid_json_file, read_json_list, h,
        Json.isArr]

/-- An environment whose API is unreachable but whose file system holds
a valid two-element output file everywhere. -/
def envOffline : Env :=
  { fs := fun _ => some (.valid (.arr [Json.num 1, Json.num 2])),
    search := fun _ => .error "offline",
    count := fun _ => .error "offline",
    page := fun _ _ => .error "offline",
    saveFail := fun _ => none }

/-- Witness for C1: with a valid existing file, the runner skips with
count 2 and zero requests even though the network is down. -/
theorem c1_resume_idempotence_witness :
    envOffline.fs (output_path "out" 7)
        = some (.valid (.arr [Json.num 1, Json.num 2]))
  ∧ process_single_journal envOffline "Nature" 7 "out" =
      (some { line_number := 7, journal_name := "Nature",
              journal_display_name := none, status := "skipped",
              articles_count := some 2,
              message := "File already exists and is valid" },
       ([] : List Req), ([] : List (String × Json))) :=
  ⟨rfl, c1_resume_idempotence envOffline "Nature" 7 "out"
          [Json.num 1, Json.num 2] rfl⟩

/-- An environment reaching the zero-count branch with a failing file
write: the one spot where the source performs a write outside every
`try`. -/
def envZeroSaveFail : Env :=
  { fs := fun _ => none,
    search := fun _ => .ok (some { id := some "S1",
                                   display_name := some "Nature" }),
    count := fun _ => .ok 0,
    page := fun _ _ => .ok [],
    saveFail := fun _ => some "disk full" }

/-- C2, counterexample: with a resolvable journal whose count is 0 and a
failing write of the empty output file, `process_single_journal` does
not return a JobResult — the exception from `save_to_json` propagates
(that call sits outside every `try/except` in the source). -/
theorem c2_runner_exception_free_counterexample :
    (process_single_journal envZeroSaveFail "Nature" 1 "out").1 = none :=
  rfl

/-- The pipeline after the resume check raises iff it reaches the
count-zero branch with a failing write: every other collaborator
failure is caught and reported as a `failed`/`not_found` JobResult,
and the download-branch save sits inside the `try`. -/
theorem process_after_resume_none_iff (env : Env) (journal_name : String)
    (line_number : Nat) (output_dir : String) :
    (process_after_resume env journal_name line_number output_dir).1
        = none
  ↔ ∃ journal, env.search journal_name = .ok (some journal)
      ∧ env.count journal.id = .ok 0
      ∧ ∃ msg, env.saveFail (output_path output_dir line_number)
          = some msg := by
  cases hs : env.search journal_name with
  | error e => simp [process_after_resume, hs]
  | ok o =>
    cases o with
    | none => simp [process_after_resume, hs]
    | some j =>
      cases hc : env.count j.id with
      | error e => simp [process_after_resume, hs, hc]
      | ok tc =>
        by_cases h0 : tc = 0
        · subst h0
          cases hw : env.saveFail (output_path output_dir line_number)
            with
          | none => simp [process_after_resume, hs, hc, hw]
          | some m => simp [process_after_resume, hs, hc, hw]
        · cases hw : env.saveFail (output_path output_dir line_number)
            with
          | none => simp [process_after_resume, hs, hc, hw, h0]
          | some m => simp [process_after_resume, hs, hc, hw, h0]

/-- C2 (amended).  The Job Runner returns a JobResult for every input
and every collaborator outcome — write failures in the download branch
included, they are caught and reported as `failed` — except in exactly
two raising cases: (1) the resume check reads an existing output file
whose decoding raises outside the caught `(json.JSONDecodeError,
IOError)` tuple (e.g. `UnicodeDecodeError` on non-UTF-8 bytes), and
(2) the resume check falls through, the journal resolves, the count is
zero, and writing the empty output file raises — that `save_to_json`
call sits outside every `try/except`.  Formally, the runner raises
exactly in those two cases. -/
theorem c2_runner_exception_free (env : Env) (journal_name : String)
    (line_number : Nat) (output_dir : String) :
    (process_single_journal env journal_name line_number output_dir).1
        = none
  ↔ ((∃ msg, env.fs (output_path output_dir line_number)
          = some (.raises msg))
     ∨ (is_valid_json_file env.fs (output_path output_dir line_number)
          = .ok false
        ∧ ∃ journal, env.search journal_name = .ok (some journal)
            ∧ env.count journal.id = .ok 0
            ∧ ∃ msg, env.saveFail (output_path output_dir line_number)
                = some msg)) := by
  cases hf : env.fs (output_path output_dir line_number) with
  | none =>
      simp [process_single_journal, is_valid_json_file, hf,
            process_after_resume_none_iff]
  | some f =>
      cases f with
      | invalid =>
          simp [process_single_journal, is_valid_json_file, hf,
                process_after_resume_none_iff]
      | raises m =>
          simp [process_single_journal, is_valid_json_file, hf]
      | valid j =>
          cases j <;>
            simp [process_single_journal, is_valid_json_file,
                  read_json_list, Json.isArr, hf,
                  process_after_resume_none_iff]

/-- An environment whose existing output file raises an uncaught
decode exception (e.g. non-UTF-8 bytes) at the resume check. -/
def envBadEncoding : Env :=
  { fs := fun _ => some (.raises "UnicodeDecodeError"),
    search := fun _ => .ok (some { id := some "S1",
                                   display_name := some "Nature" }),
    count := fun _ => .ok 5,
    page := fun _ _ => .ok [],
    saveFail := fun _ => none }

/-- Witness applying `c2_runner_exception_free` in the backward
direction at both concrete raising environments. -/
theorem c2_runner_exception_free_witness :
    (process_single_journal envZeroSaveFail "Science" 3 "out").1
        = none
  ∧ (process_single_journal envBadEncoding "Science" 3 "out").1
        = none :=
  ⟨(c2_runner_exception_free envZeroSaveFail "Science" 3 "out").mpr
     (Or.inr ⟨rfl, ⟨{ id := some "S1", display_name := some "Nature" },
       rfl, rfl, "disk full", rfl⟩⟩),
   (c2_runner_exception_free envBadEncoding "Science" 3 "out").mpr
     (Or.inl ⟨"UnicodeDecodeError", rfl⟩)⟩

/-- C7.  Count-zero terminal: when resume falls through, the journal
resolves, and the count query reports 0 works (with the write of the
empty file succeeding), the runner writes exactly the empty JSON array
to the per-line output file, issues exactly the search and count
requests (in particular no page fetch), and returns `success` with
`articles_count = 0`. -/
theorem c7_count_zero_terminal (env : Env) (journal_name : String)
    (line_number : Nat) (output_dir : String) (journal : Source)
    (hv : is_valid_json_file env.fs (output_path output_dir line_number)
            = .ok false)
    (hs : env.search journal_name = .ok (some journal))
    (hc : env.count journal.id = .ok 0)
    (hw : env.saveFail (output_path output_dir line_number) = none) :
    process_single_journal env journal_name line_number output_dir =
      (some { line_number, journal_name,
              journal_display_name :=
                some (journal.display_name.getD journal_name),
              status := "success", articles_count := some 0,
              message := "No articles" },
       [Req.search journal_name, Req.count journal.id],
       [(output_path output_dir line_number, Json.arr [])]) := by
  simp [process_single_journal, hv, process_after_resume, hs, hc, hw]

/-- An environment with an empty journal: resolution succeeds and the
count query reports zero works. -/
def envZero : Env :=
  { fs := fun _ => none,
    search := fun _ => .ok (some { id := some "S1",
                                   display_name := some "Nature" }),
    count := fun _ => .ok 0,
    page := fun _ _ => .ok [],
    saveFail := fun _ => none }

/-- Witness for C7 at the empty-journal environment. -/
theorem c7_count_zero_terminal_witness :
    process_single_journal envZero "Nature" 4 "out" =
      (some { line_number := 4, journal_name := "Nature",
              journal_display_name := some "Nature",
              status := "success", articles_count := some 0,
              message := "No articles" },
       [Req.search "Nature", Req.count (some "S1")],
       [(output_path "out" 4, Json.arr [])]) :=
  c7_count_zero_terminal envZero "Nature" 4 "out"
    { id := some "S1", display_name := some "Nature" } rfl rfl rfl rfl

/-- The page `fetch_works_page` tasks submitted by `download_all_works`,
collected in submission order: concatenation of every successful page's
results, a failed page contributing nothing. -/
theorem download_foldl_eq (env : Env) (jid : Option String)
    (pages : List Nat) (acc : List Work) :
    pages.foldl
        (fun acc p =>
          match env.page jid p with
          | .ok works => acc ++ works
          | .error _ => acc) acc
      = acc ++ (pages.filterMap
          (fun p => (env.page jid p).toOption)).flatten := by
  induction pages generalizing acc with
  | nil => simp
  | cons p ps ih =>
      cases hp : env.page jid p with
      | ok works =>
          simp [List.foldl_cons, hp, ih, List.filterMap_cons,
                Except.toOption, List.append_assoc]
      | error e =>
          simp [List.foldl_cons, hp, ih, List.filterMap_cons,
                Except.toOption]

/-- C6.  Paged Fetcher page math: `num_pages` is the integer expression
`(total_count + 200 - 1) / 200`, which is the ceiling of
`total_count / 200` (Galois characterization); the fetcher issues its
page requests exactly once for each page number in `[1, num_pages]`,
independently of the worker-pool size; and `total_count = 450` yields
exactly the three requests for pages 1, 2, 3. -/
theorem c6_page_math (env : Env) (jid : Option String) (tc : Nat)
    (mw mw' : Nat) :
    num_pages tc = (tc + 200 - 1) / 200
  ∧ (∀ k, num_pages tc ≤ k ↔ tc ≤ 200 * k)
  ∧ (download_all_works env jid tc mw).2
      = (List.range' 1 (num_pages tc)).map (Req.page jid)
  ∧ (∀ p, ((download_all_works env jid tc mw).2).count (Req.page jid p)
      = if 1 ≤ p ∧ p ≤ num_pages tc then 1 else 0)
  ∧ (download_all_works env jid tc mw).2
      = (download_all_works env jid tc mw').2
  ∧ (tc = 450 → (download_all_works env jid tc mw).2
      = [Req.page jid 1, Req.page jid 2, Req.page jid 3]) := by
  refine ⟨rfl, ?_, rfl, ?_, rfl, ?_⟩
  · intro k
    unfold num_pages PER_PAGE
    omega
  · intro p
    have hinj : Function.Injective (Req.page jid) := by
      intro a b h
      injection h
    rw [show (download_all_works env jid tc mw).2
          = (List.range' 1 (num_pages tc)).map (Req.page jid) from rfl]
    rw [List.count_map_of_injective _ _ hinj p]
    by_cases hp : 1 ≤ p ∧ p ≤ num_pages tc
    · rw [if_pos hp]
      exact List.count_eq_one_of_mem
        (List.nodup_range' 1 (num_pages tc) 1 (by norm_num))
        (List.mem_range'_1.mpr ⟨hp.1, by omega⟩)
    · rw [if_neg hp]
      refine List.count_eq_zero_of_not_mem fun hmem => ?_
      have := List.mem_range'_1.mp hmem
      omega
  · intro h
    subst h
    rfl

/-- Witness for C6 at `total_count = 450`. -/
theorem c6_page_math_witness :
    (download_all_works envZero (some "S1") 450 2).2
      = [Req.page (some "S1") 1, Req.page (some "S1") 2,
         Req.page (some "S1") 3]
  ∧ (num_pages 450 ≤ 3 ↔ 450 ≤ 200 * 3) :=
  ⟨(c6_page_math envZero (some "S1") 450 2 5).2.2.2.2.2 rfl,
   (c6_page_math envZero (some "S1") 450 2 5).2.1 3⟩

/-- An environment in which page 2 of every journal fails permanently
while every other page returns a full page of 200 works. -/
def envDropPage2 : Env :=
  { fs := fun _ => none,
    search := fun _ => .ok (some { id := some "S1",
                                   display_name := some "Nature" }),
    count := fun _ => .ok 450,
    page := fun _ p => if p = 2 then .error "boom"
                       else .ok (List.replicate 200 emptyWork),
    saveFail := fun _ => none }

/-- C8.  Best-effort page drops: `download_all_works` always returns (a
total function of the collaborator outcomes); its result is exactly the
concatenation, in submission order, of the successful pages' records
with every permanently failed page contributing nothing; consequently
the result can be shorter than `total_count` (at 450 works with page 2
failing, only 400 records are returned). -/
theorem c8_best_effort (env : Env) (jid : Option String)
    (tc mw : Nat) :
    (download_all_works env jid tc mw).1
      = ((List.range' 1 (num_pages tc)).filterMap
            (fun p => (env.page jid p).toOption)).flatten.map
          process_work
  ∧ ∃ (env₀ : Env) (tc₀ : Nat),
      ((download_all_works env₀ jid tc₀ mw).1).length < tc₀ := by
  constructor
  · show ((List.range' 1 (num_pages tc)).foldl _ []).map process_work = _
    rw [download_foldl_eq env jid (List.range' 1 (num_pages tc)) []]
    rw [List.nil_append]
  · refine ⟨envDropPage2, 450, ?_⟩
    have h : (download_all_works envDropPage2 jid 450 mw).1
        = ((List.range' 1 (num_pages 450)).filterMap
              (fun p => (envDropPage2.page jid p).toOption)).flatten.map
            process_work := by
      show ((List.range' 1 (num_pages 450)).foldl _ []).map process_work
            = _
      rw [download_foldl_eq envDropPage2 jid _ []]
      rw [List.nil_append]
    rw [h, show List.range' 1 (num_pages 450) = [1, 2, 3] from rfl]
    rw [show List.filterMap
          (fun p => (envDropPage2.page jid p).toOption) [1, 2, 3]
        = [List.replicate 200 emptyWork, List.replicate 200 emptyWork]
        from rfl]
    rw [List.length_map]
    have hflat : ([List.replicate 200 emptyWork,
                   List.replicate 200 emptyWork] : List (List Work)).flatten
        = List.replicate 200 emptyWork
          ++ (List.replicate 200 emptyWork ++ []) := rfl
    rw [hflat]
    simp only [List.length_append, List.length_replicate, List.length_nil]
    omega

/-! ## Claims about the Batch Orchestrator and the single-journal main -/

theorem batch_foldl_results (jobs : List JobResult) (s : BatchState) :
    (jobs.foldl batch_step s).results = s.results ++ jobs := by
  induction jobs generalizing s with
  | nil => simp
  | cons j js ih => simp [List.foldl_cons, ih, batch_step]

theorem batch_after_results (jobs : List JobResult) :
    (batch_after jobs).results = jobs := by
  simpa using batch_foldl_results jobs { results := [], log := none }

/-- Log content after the loop has processed every job (before the
final save): written exactly at the checkpoints, i.e. it is the longest
completed multiple-of-ten prefix, or never written below ten jobs. -/
theorem batch_after_log (jobs : List JobResult) :
    (batch_after jobs).log =
      if jobs.length < 10 then none
      else some (jobs.take (10 * (jobs.length / 10))) := by
  induction jobs using List.reverseRecOn with
  | nil => rfl
  | append_singleton js j ih =>
      have hstep : batch_after (js ++ [j]) = batch_step (batch_after js) j := by
        rw [batch_after, batch_after, List.foldl_append, List.foldl_cons,
            List.foldl_nil]
      rw [hstep, batch_step]
      rw [batch_after_results js]
      by_cases h : (js ++ [j]).length % 10 = 0
      · rw [if_pos h]
        have hlen : (js ++ [j]).length = js.length + 1 := by simp
        rw [if_neg (by omega)]
        have h10 : 10 * ((js ++ [j]).length / 10) = (js ++ [j]).length := by
          omega
        rw [h10, List.take_length]
      · rw [if_neg h, ih]
        have hlen : (js ++ [j]).length = js.length + 1 := by simp
        by_cases hsmall : js.length < 10
        · rw [if_pos hsmall, if_pos (by omega)]
        · rw [if_neg hsmall, if_neg (by omega)]
          have hdiv : (js ++ [j]).length / 10 = js.length / 10 := by omega
          rw [hdiv]
          have hle : 10 * (js.length / 10) ≤ js.length := by omega
          rw [List.take_append_of_le_length hle]

/-- C9.  Checkpoint prefix invariant: the loop state carries exactly
the processed results; the progress log on disk is rewritten exactly at
every 10th completion (holding the longest multiple-of-ten prefix, and
nothing before job 10) and once more with the full sequence at run end,
so the persisted log is always a prefix of the completed-job sequence;
for a 25-job run the log is written after jobs 10 and 20 and at run
end, and a crash after job 12 leaves exactly the first 10 entries. -/
theorem c9_checkpoint_invariant (jobs : List JobResult) :
    (batch_after jobs).results = jobs
  ∧ (batch_after jobs).log =
      (if jobs.length < 10 then none
       else some (jobs.take (10 * (jobs.length / 10))))
  ∧ (batch_run jobs).log = some jobs
  ∧ (∀ l, (batch_after jobs).log = some l → l <+: jobs)
  ∧ (jobs.length = 25 →
        (batch_after (jobs.take 12)).log = some (jobs.take 10)
      ∧ (batch_after (jobs.take 20)).log = some (jobs.take 20)
      ∧ (batch_after jobs).log = some (jobs.take 20)
      ∧ (batch_run jobs).log = some jobs) := by
  refine ⟨batch_after_results jobs, batch_after_log jobs, ?_, ?_, ?_⟩
  · show some (batch_after jobs).results = some jobs
    rw [batch_after_results jobs]
  · intro l hl
    rw [batch_after_log jobs] at hl
    by_cases h : jobs.length < 10
    · rw [if_pos h] at hl; cases hl
    · rw [if_neg h] at hl
      cases hl
      exact List.take_prefix _ _
  · intro h25
    refine ⟨?_, ?_, ?_, ?_⟩
    · rw [batch_after_log]
      have h12 : (jobs.take 12).length = 12 := by
        rw [List.length_take]; omega
      rw [h12, if_neg (by omega), List.take_take]
      norm_num
    · rw [batch_after_log]
      have h20 : (jobs.take 20).length = 20 := by
        rw [List.length_take]; omega
      rw [h20, if_neg (by omega), List.take_take]
      norm_num
    · rw [batch_after_log, h25, if_neg (by omega)]
    · show some (batch_after jobs).results = some jobs
      rw [batch_after_results jobs]

/-- A fixed successful JobResult used to instantiate the batch loop. -/
def dummyJob : JobResult :=
  { line_number := 1, journal_name := "J", journal_display_name := none,
    status := "success", articles_count := some 0, message := "Success" }

/-- Witness for C9 on a concrete 25-job run. -/
theorem c9_checkpoint_invariant_witness :
    (batch_after ((List.replicate 25 dummyJob).take 12)).log
        = some ((List.replicate 25 dummyJob).take 10)
  ∧ (batch_after (List.replicate 25 dummyJob)).log
        = some ((List.replicate 25 dummyJob).take 20)
  ∧ (batch_run (List.replicate 25 dummyJob)).log
        = some (List.replicate 25 dummyJob) :=
  ⟨((c9_checkpoint_invariant (List.replicate 25 dummyJob)).2.2.2.2
      (by simp)).1,
   ((c9_checkpoint_invariant (List.replicate 25 dummyJob)).2.2.2.2
      (by simp)).2.2.1,
   (c9_checkpoint_invariant (List.replicate 25 dummyJob)).2.2.1⟩

/-- C10.  Single-journal count-failure conflation: the single-journal
`get_total_works_count` turns any request exception into the value 0
after exactly one request (no retry), so `main` cannot distinguish a
failed count lookup from a journal with zero publications: its outcome
is identical to the zero-count outcome, and when the journal resolves
it exits through the "no works found" path. -/
theorem c10_count_failure_conflation (env : SJEnv)
    (journal_name : String) (jid : Option String) (msg : String)
    (journal : Source) (hc : env.count = .error msg) :
    (sj_get_total_works_count jid env.count).1 = 0
  ∧ (sj_get_total_works_count jid env.count).2.length = 1
  ∧ sj_main env journal_name
      = sj_main { env with count := .ok 0 } journal_name
  ∧ (env.search = .ok (some journal) →
        sj_main env journal_name = .no_works) := by
  refine ⟨by rw [hc]; rfl, by rw [hc]; rfl, ?_, ?_⟩
  · cases hs : env.search with
    | error e =>
        simp [sj_main, sj_search_journal_by_name, hs]
    | ok o =>
        cases o with
        | none => simp [sj_main, sj_search_journal_by_name, hs]
        | some j =>
            simp [sj_main, sj_search_journal_by_name,
                  sj_get_total_works_count, hs, hc]
  · intro hsearch
    simp [sj_main, sj_search_journal_by_name,
          sj_get_total_works_count, hsearch, hc]

/-- A single-journal environment whose count request fails while the
search resolves. -/
def sjEnvCountFail : SJEnv :=
  { search := .ok (some { id := some "S1",
                          display_name := some "Nature" }),
    count := .error "connection timeout",
    page := fun _ => .ok [] }

/-- Witness for C10 at the concrete failing-count environment. -/
theorem c10_count_failure_conflation_witness :
    (sj_get_total_works_count (some "S1") sjEnvCountFail.count).1 = 0
  ∧ sj_main sjEnvCountFail "Nature" = SJOutcome.no_works :=
  ⟨(c10_count_failure_conflation sjEnvCountFail "Nature" (some "S1")
      "connection timeout"
      { id := some "S1", display_name := some "Nature" } rfl).1,
   (c10_count_failure_conflation sjEnvCountFail "Nature" (some "S1")
      "connection timeout"
      { id := some "S1", display_name := some "Nature" } rfl).2.2.2 rfl⟩
